import Mathlib

/-!
Cinder volume client (`pkg/client/cinder.go`)

A shallow embedding of the `cinderV2` storage client.  Every method of the
Go type calls one function of the gophercloud SDK, bumps Prometheus counters
and returns.  The embedding keeps that shape:

* the gophercloud functions are fields of a record `SDK`, one per call site,
  each returning the Go result pair (`nil` is `none`);
* the two counter vectors of the `metrics` package form the record `Metrics`,
  threaded through every method explicitly;
* `IsNotFoundError`, the error classifier of package `client`, is a parameter.
-/

namespace Cinder

/-! ## Metrics -/

/-- A label set `prometheus.Labels` for the counter vectors used here.  Both
vectors are addressed with the keys `provider` and `service`. -/
structure Labels where
  provider : String
  service : String
deriving DecidableEq, Repr

/-- The literal `prometheus.Labels{"provider": "openstack", "service": "cinder"}`
that every call site of the file passes to `With`. -/
def cinderLabels : Labels := { provider := "openstack", service := "cinder" }

/-- A `prometheus.CounterVec`: one counter per label set.  The value is the
number of `Inc` calls received under that label set. -/
abbrev CounterVec := Labels → Nat

/-- The call `vec.With(l).Inc()`: the counter of label set `l` goes up by one and
every other counter of the vector keeps its value. -/
def CounterVec.Inc (vec : CounterVec) (l : Labels) : CounterVec :=
  fun k => if k = l then vec k + 1 else vec k

/-- The package-level counter vectors `metrics.APIRequestCount` and
`metrics.APIFailedRequestCount`. -/
structure Metrics where
  APIRequestCount : CounterVec
  APIFailedRequestCount : CounterVec

/-- Freshly registered counter vectors: every counter is zero. -/
def Metrics.zero : Metrics :=
  { APIRequestCount := fun _ => 0, APIFailedRequestCount := fun _ => 0 }

/-! ## The SDK -/

/-- The types owned by gophercloud that the client only passes around. -/
structure Types where
  ServiceClient : Type
  Volume : Type
  Err : Type
  CreateOpts : Type
  ListOpts : Type
  UpdateOpts : Type
  DeleteOpts : Type
  Page : Type

/-- The gophercloud entry points called by `cinder.go`, as the values they
return.  A Go `error` is `Option Err` (`none` for `nil`), a `*volumes.Volume`
is `Option Volume`, a `[]volumes.Volume` is `Option (List Volume)` and a
`pagination.Page` is `Option Page`. -/
structure SDK (τ : Types) where
  /-- Stands for `volumes.Get(client, id).Extract()`. -/
  Get : τ.ServiceClient → String → Option τ.Volume × Option τ.Err
  /-- Stands for `volumes.Create(client, opts).Extract()`. -/
  Create : τ.ServiceClient → τ.CreateOpts → Option τ.Volume × Option τ.Err
  /-- Stands for `volumes.List(client, opts).AllPages()`. -/
  ListAllPages : τ.ServiceClient → τ.ListOpts → Option τ.Page × Option τ.Err
  /-- Stands for `volumes.ExtractVolumes(pages)`. -/
  ExtractVolumes : Option τ.Page → Option (List τ.Volume) × Option τ.Err
  /-- Stands for `volumes.Update(client, id, opts).Extract()`. -/
  Update : τ.ServiceClient → String → τ.UpdateOpts → Option τ.Volume × Option τ.Err
  /-- Stands for `volumes.Delete(client, id, opts).ExtractErr()`. -/
  Delete : τ.ServiceClient → String → τ.DeleteOpts → Option τ.Err
  /-- Stands for `volumeUtils.IDFromName(client, name)`. -/
  IDFromName : τ.ServiceClient → String → String × Option τ.Err

/-! ## The client -/

/-- The Go struct `cinderV2`. -/
structure cinderV2 (τ : Types) where
  serviceClient : τ.ServiceClient

section Methods

variable {τ : Types}

/-- The method `GetVolume`: fetches the volume data from the supplied ID. -/
def cinderV2.GetVolume (sdk : SDK τ) (IsNotFoundError : τ.Err → Bool)
    (c : cinderV2 τ) (id : String) (m : Metrics) :
    (Option τ.Volume × Option τ.Err) × Metrics :=
  let (volume, err) := sdk.Get c.serviceClient id
  let m := { m with APIRequestCount := m.APIRequestCount.Inc cinderLabels }
  match err with
  | some e =>
    let m :=
      if !IsNotFoundError e then
        { m with APIFailedRequestCount := m.APIFailedRequestCount.Inc cinderLabels }
      else m
    ((none, some e), m)
  | none => ((volume, none), m)

/-- The method `CreateVolume`: creates a volume. -/
def cinderV2.CreateVolume (sdk : SDK τ)
    (c : cinderV2 τ) (opts : τ.CreateOpts) (m : Metrics) :
    (Option τ.Volume × Option τ.Err) × Metrics :=
  let (volume, err) := sdk.Create c.serviceClient opts
  let m := { m with APIRequestCount := m.APIRequestCount.Inc cinderLabels }
  match err with
  | some e =>
    let m := { m with APIFailedRequestCount := m.APIFailedRequestCount.Inc cinderLabels }
    ((none, some e), m)
  | none => ((volume, none), m)

/-- The method `ListVolumes`: lists all volumes. -/
def cinderV2.ListVolumes (sdk : SDK τ)
    (c : cinderV2 τ) (opts : τ.ListOpts) (m : Metrics) :
    (Option (List τ.Volume) × Option τ.Err) × Metrics :=
  let (pages, err) := sdk.ListAllPages c.serviceClient opts
  let m := { m with APIRequestCount := m.APIRequestCount.Inc cinderLabels }
  match err with
  | some e =>
    let m := { m with APIFailedRequestCount := m.APIFailedRequestCount.Inc cinderLabels }
    ((none, some e), m)
  | none => (sdk.ExtractVolumes pages, m)

/-- The method `UpdateVolume`: updates the volume from the supplied id. -/
def cinderV2.UpdateVolume (sdk : SDK τ) (IsNotFoundError : τ.Err → Bool)
    (c : cinderV2 τ) (id : String) (opts : τ.UpdateOpts) (m : Metrics) :
    (Option τ.Volume × Option τ.Err) × Metrics :=
  let (volume, err) := sdk.Update c.serviceClient id opts
  let m := { m with APIRequestCount := m.APIRequestCount.Inc cinderLabels }
  match err with
  | some e =>
    if !IsNotFoundError e then
      let m := { m with APIFailedRequestCount := m.APIFailedRequestCount.Inc cinderLabels }
      ((none, some e), m)
    else ((volume, none), m)
  | none => ((volume, none), m)

/-- The method `DeleteVolume`: deletes the volume from the supplied id. -/
def cinderV2.DeleteVolume (sdk : SDK τ) (IsNotFoundError : τ.Err → Bool)
    (c : cinderV2 τ) (id : String) (opts : τ.DeleteOpts) (m : Metrics) :
    Option τ.Err × Metrics :=
  let err := sdk.Delete c.serviceClient id opts
  let m := { m with APIRequestCount := m.APIRequestCount.Inc cinderLabels }
  match err with
  | some e =>
    if !IsNotFoundError e then
      let m := { m with APIFailedRequestCount := m.APIFailedRequestCount.Inc cinderLabels }
      (some e, m)
    else (none, m)
  | none => (none, m)

/-- The method `VolumeIDFromName`: resolves the given volume name to a unique ID. -/
def cinderV2.VolumeIDFromName (sdk : SDK τ)
    (c : cinderV2 τ) (name : String) (m : Metrics) :
    (String × Option τ.Err) × Metrics :=
  (sdk.IDFromName c.serviceClient name, m)

end Methods

/-! ## Sequences of calls -/

/-- One call of an instrumented method of the client, with its arguments. -/
inductive Call (τ : Types) where
  | GetVolume (id : String)
  | CreateVolume (opts : τ.CreateOpts)
  | ListVolumes (opts : τ.ListOpts)
  | UpdateVolume (id : String) (opts : τ.UpdateOpts)
  | DeleteVolume (id : String) (opts : τ.DeleteOpts)

/-- The counters after one call, the returned values dropped. -/
def Call.exec {τ : Types} (sdk : SDK τ) (IsNotFoundError : τ.Err → Bool)
    (c : cinderV2 τ) (call : Call τ) (m : Metrics) : Metrics :=
  match call with
  | .GetVolume id => (c.GetVolume sdk IsNotFoundError id m).2
  | .CreateVolume opts => (c.CreateVolume sdk opts m).2
  | .ListVolumes opts => (c.ListVolumes sdk opts m).2
  | .UpdateVolume id opts => (c.UpdateVolume sdk IsNotFoundError id opts m).2
  | .DeleteVolume id opts => (c.DeleteVolume sdk IsNotFoundError id opts m).2

/-- The counters after a sequence of calls, run left to right.  Each call comes
with the answers the SDK gives at that moment, so the remote service may
answer the same request differently at different times. -/
def runCalls {τ : Types} (IsNotFoundError : τ.Err → Bool) (c : cinderV2 τ) :
    List (SDK τ × Call τ) → Metrics → Metrics
  | [], m => m
  | (sdk, call) :: rest, m => runCalls IsNotFoundError c rest (call.exec sdk IsNotFoundError c m)

/-- The pair (requests, failures) read off the counters labelled
provider=openstack, service=cinder. -/
def Metrics.cinder (m : Metrics) : Nat × Nat :=
  (m.APIRequestCount cinderLabels, m.APIFailedRequestCount cinderLabels)

/-! ## A concrete service for evaluation -/

namespace Sample

/-- Volumes are their ids, errors are HTTP status codes, pages are lists of ids
and the remaining SDK types carry no data. -/
abbrev types : Types :=
  { ServiceClient := Unit, Volume := String, Err := Nat, CreateOpts := Nat,
    ListOpts := Nat, UpdateOpts := Unit, DeleteOpts := Unit, Page := List String }

/-- A classifier that takes status 404 for not-found. -/
def isNotFound : types.Err → Bool := fun (e : Nat) => e == 404

/-- A service where every call fails with status 404. -/
def sdk404 : SDK types :=
  { Get := fun _ _ => (none, some (404 : Nat))
    Create := fun _ _ => (none, some (404 : Nat))
    ListAllPages := fun _ _ => (none, some (404 : Nat))
    ExtractVolumes := fun _ => (none, none)
    Update := fun _ id _ => (some id, some (404 : Nat))
    Delete := fun _ _ _ => some (404 : Nat)
    IDFromName := fun _ _ => ("", some (404 : Nat)) }

/-- A service where every call fails with status 500. -/
def sdk500 : SDK types :=
  { Get := fun _ _ => (none, some (500 : Nat))
    Create := fun _ _ => (none, some (500 : Nat))
    ListAllPages := fun _ _ => (none, some (500 : Nat))
    ExtractVolumes := fun _ => (none, none)
    Update := fun _ _ _ => (none, some (500 : Nat))
    Delete := fun _ _ _ => some (500 : Nat)
    IDFromName := fun _ _ => ("", some (500 : Nat)) }

/-- A service where every call succeeds. -/
def sdkOk : SDK types :=
  { Get := fun _ id => (some id, none)
    Create := fun _ _ => (some "new", none)
    ListAllPages := fun _ _ => (some ["a", "b"], none)
    ExtractVolumes := fun p => (p, none)
    Update := fun _ id _ => (some id, none)
    Delete := fun _ _ _ => none
    IDFromName := fun _ name => (name, none) }

/-- A service whose listing fetches its pages but cannot decode them: the
extraction hands back a partial list together with error 1. -/
def sdkBadPages : SDK types :=
  { sdkOk with ExtractVolumes := fun _ => (some ["a"], some (1 : Nat)) }

/-- The client value used in the examples. -/
def client : cinderV2 types := { serviceClient := () }

end Sample

/-! ## Auxiliary facts -/

theorem CounterVec.Inc_apply (vec : CounterVec) (l k : Labels) :
    vec.Inc l k = if k = l then vec k + 1 else vec k := rfl

theorem CounterVec.Inc_self (vec : CounterVec) (l : Labels) :
    vec.Inc l l = vec l + 1 := by
  simp [CounterVec.Inc]

end Cinder

/-! ## The request counter -/

namespace Cinder

variable {τ : Types}

/-- C1: whatever the SDK answers, each of GetVolume, CreateVolume, ListVolumes,
UpdateVolume and DeleteVolume leaves the request counter vector as it was except
for the counter labelled provider=openstack, service=cinder, which is one higher
than before the call. -/
theorem request_count_incremented_once (sdk : SDK τ) (IsNotFoundError : τ.Err → Bool)
    (c : cinderV2 τ) (m : Metrics) (id : String) (createOpts : τ.CreateOpts)
    (listOpts : τ.ListOpts) (updateOpts : τ.UpdateOpts) (deleteOpts : τ.DeleteOpts)
    (l : Labels) :
    (c.GetVolume sdk IsNotFoundError id m).2.APIRequestCount l
        = (if l = cinderLabels then m.APIRequestCount l + 1 else m.APIRequestCount l) ∧
    (c.CreateVolume sdk createOpts m).2.APIRequestCount l
        = (if l = cinderLabels then m.APIRequestCount l + 1 else m.APIRequestCount l) ∧
    (c.ListVolumes sdk listOpts m).2.APIRequestCount l
        = (if l = cinderLabels then m.APIRequestCount l + 1 else m.APIRequestCount l) ∧
    (c.UpdateVolume sdk IsNotFoundError id updateOpts m).2.APIRequestCount l
        = (if l = cinderLabels then m.APIRequestCount l + 1 else m.APIRequestCount l) ∧
    (c.DeleteVolume sdk IsNotFoundError id deleteOpts m).2.APIRequestCount l
        = (if l = cinderLabels then m.APIRequestCount l + 1 else m.APIRequestCount l) := by
  refine ⟨?_, ?_, ?_, ?_, ?_⟩
  · unfold cinderV2.GetVolume
    rcases sdk.Get c.serviceClient id with ⟨v, _ | e⟩
    · simp [CounterVec.Inc_apply]
    · by_cases h : IsNotFoundError e <;> simp [CounterVec.Inc_apply, h]
  · unfold cinderV2.CreateVolume
    rcases sdk.Create c.serviceClient createOpts with ⟨v, _ | e⟩ <;>
      simp [CounterVec.Inc_apply]
  · unfold cinderV2.ListVolumes
    rcases sdk.ListAllPages c.serviceClient listOpts with ⟨p, _ | e⟩ <;>
      simp [CounterVec.Inc_apply]
  · unfold cinderV2.UpdateVolume
    rcases sdk.Update c.serviceClient id updateOpts with ⟨v, _ | e⟩
    · simp [CounterVec.Inc_apply]
    · by_cases h : IsNotFoundError e <;> simp [CounterVec.Inc_apply, h]
  · unfold cinderV2.DeleteVolume
    rcases sdk.Delete c.serviceClient id deleteOpts with _ | e
    · simp [CounterVec.Inc_apply]
    · by_cases h : IsNotFoundError e <;> simp [CounterVec.Inc_apply, h]

/-- C10: VolumeIDFromName returns the pair of the SDK's IDFromName as it is, for
every name and every answer of the SDK, and hands back the counters it was
given: neither the request counters nor the failure counters move. -/
theorem volumeIDFromName_uninstrumented (sdk : SDK τ) (c : cinderV2 τ) (name : String)
    (m : Metrics) :
    (c.VolumeIDFromName sdk name m).1 = sdk.IDFromName c.serviceClient name ∧
    (c.VolumeIDFromName sdk name m).2.APIRequestCount = m.APIRequestCount ∧
    (c.VolumeIDFromName sdk name m).2.APIFailedRequestCount = m.APIFailedRequestCount :=
  ⟨rfl, rfl, rfl⟩

/-! ## Not-found errors and the failure counter -/

/-- C2, as stated, fails for CreateVolume and ListVolumes: against a service
that answers every call with status 404, which the classifier takes for
not-found, both methods leave the failure counter labelled provider=openstack,
service=cinder different from (one above) its value before the call. -/
theorem createVolume_listVolumes_count_not_found :
    Sample.isNotFound (404 : Nat) = true ∧
    Sample.sdk404.Create Sample.client.serviceClient (0 : Nat) = (none, some (404 : Nat)) ∧
    (Sample.client.CreateVolume Sample.sdk404 (0 : Nat) Metrics.zero).2.APIFailedRequestCount
        cinderLabels ≠ Metrics.zero.APIFailedRequestCount cinderLabels ∧
    (Sample.client.CreateVolume Sample.sdk404 (0 : Nat) Metrics.zero).2.APIFailedRequestCount
        cinderLabels = 1 ∧
    Sample.sdk404.ListAllPages Sample.client.serviceClient (0 : Nat)
        = (none, some (404 : Nat)) ∧
    (Sample.client.ListVolumes Sample.sdk404 (0 : Nat) Metrics.zero).2.APIFailedRequestCount
        cinderLabels ≠ Metrics.zero.APIFailedRequestCount cinderLabels ∧
    (Sample.client.ListVolumes Sample.sdk404 (0 : Nat) Metrics.zero).2.APIFailedRequestCount
        cinderLabels = 1 := by
  refine ⟨by decide, rfl, by decide, by decide, rfl, by decide, by decide⟩

/-- C2, amended: when the SDK call fails with an error that IsNotFoundError
classifies as not-found, GetVolume, UpdateVolume and DeleteVolume leave the whole
failure counter vector as it was; CreateVolume and ListVolumes do not consult
the classifier, and any error of the SDK call (of AllPages, for ListVolumes),
not-found or not, raises the failure counter labelled provider=openstack,
service=cinder by one. -/
theorem failed_count_on_not_found (sdk : SDK τ) (IsNotFoundError : τ.Err → Bool)
    (c : cinderV2 τ) (m : Metrics) (id : String) (createOpts : τ.CreateOpts)
    (listOpts : τ.ListOpts) (updateOpts : τ.UpdateOpts) (deleteOpts : τ.DeleteOpts) :
    (∀ v e, sdk.Get c.serviceClient id = (v, some e) → IsNotFoundError e = true →
      (c.GetVolume sdk IsNotFoundError id m).2.APIFailedRequestCount
        = m.APIFailedRequestCount) ∧
    (∀ v e, sdk.Update c.serviceClient id updateOpts = (v, some e) →
      IsNotFoundError e = true →
      (c.UpdateVolume sdk IsNotFoundError id updateOpts m).2.APIFailedRequestCount
        = m.APIFailedRequestCount) ∧
    (∀ e, sdk.Delete c.serviceClient id deleteOpts = some e → IsNotFoundError e = true →
      (c.DeleteVolume sdk IsNotFoundError id deleteOpts m).2.APIFailedRequestCount
        = m.APIFailedRequestCount) ∧
    (∀ v e, sdk.Create c.serviceClient createOpts = (v, some e) →
      (c.CreateVolume sdk createOpts m).2.APIFailedRequestCount cinderLabels
        = m.APIFailedRequestCount cinderLabels + 1) ∧
    (∀ p e, sdk.ListAllPages c.serviceClient listOpts = (p, some e) →
      (c.ListVolumes sdk listOpts m).2.APIFailedRequestCount cinderLabels
        = m.APIFailedRequestCount cinderLabels + 1) := by
  refine ⟨?_, ?_, ?_, ?_, ?_⟩
  · intro v e hs hnf
    simp [cinderV2.GetVolume, hs, hnf]
  · intro v e hs hnf
    simp [cinderV2.UpdateVolume, hs, hnf]
  · intro e hs hnf
    simp [cinderV2.DeleteVolume, hs, hnf]
  · intro v e hs
    simp [cinderV2.CreateVolume, hs, CounterVec.Inc_self]
  · intro p e hs
    simp [cinderV2.ListVolumes, hs, CounterVec.Inc_self]

/-- Witness for C2 (amended): the service answering 404 everywhere, where the
classifier accepts 404. -/
theorem failed_count_on_not_found_witness :
    (Sample.client.GetVolume Sample.sdk404 Sample.isNotFound "vol-1"
        Metrics.zero).2.APIFailedRequestCount = Metrics.zero.APIFailedRequestCount ∧
    (Sample.client.UpdateVolume Sample.sdk404 Sample.isNotFound "vol-1" ()
        Metrics.zero).2.APIFailedRequestCount = Metrics.zero.APIFailedRequestCount ∧
    (Sample.client.DeleteVolume Sample.sdk404 Sample.isNotFound "vol-1" ()
        Metrics.zero).2.APIFailedRequestCount = Metrics.zero.APIFailedRequestCount ∧
    (Sample.client.CreateVolume Sample.sdk404 (0 : Nat)
        Metrics.zero).2.APIFailedRequestCount cinderLabels
        = Metrics.zero.APIFailedRequestCount cinderLabels + 1 ∧
    (Sample.client.ListVolumes Sample.sdk404 (0 : Nat)
        Metrics.zero).2.APIFailedRequestCount cinderLabels
        = Metrics.zero.APIFailedRequestCount cinderLabels + 1 :=
  have h := failed_count_on_not_found Sample.sdk404 Sample.isNotFound Sample.client
    Metrics.zero "vol-1" (0 : Nat) (0 : Nat) () ()
  ⟨h.1 none (404 : Nat) rfl (by decide),
   h.2.1 (some "vol-1") (404 : Nat) rfl (by decide),
   h.2.2.1 (404 : Nat) rfl (by decide),
   h.2.2.2.1 none (404 : Nat) rfl,
   h.2.2.2.2 none (404 : Nat) rfl⟩

/-! ## Other errors -/

/-- C3: when the SDK call fails with an error that IsNotFoundError does not
classify as not-found, each of the five methods returns that very error, with a
nil result where the method has a result, and the failure counter labelled
provider=openstack, service=cinder is one higher than before while every other
failure counter keeps its value. -/
theorem other_error_forwarded_and_counted (sdk : SDK τ) (IsNotFoundError : τ.Err → Bool)
    (c : cinderV2 τ) (m : Metrics) (id : String) (createOpts : τ.CreateOpts)
    (listOpts : τ.ListOpts) (updateOpts : τ.UpdateOpts) (deleteOpts : τ.DeleteOpts)
    (l : Labels) :
    (∀ v e, sdk.Get c.serviceClient id = (v, some e) → IsNotFoundError e = false →
      (c.GetVolume sdk IsNotFoundError id m).1 = (none, some e) ∧
      (c.GetVolume sdk IsNotFoundError id m).2.APIFailedRequestCount l
        = (if l = cinderLabels then m.APIFailedRequestCount l + 1
           else m.APIFailedRequestCount l)) ∧
    (∀ v e, sdk.Create c.serviceClient createOpts = (v, some e) →
      IsNotFoundError e = false →
      (c.CreateVolume sdk createOpts m).1 = (none, some e) ∧
      (c.CreateVolume sdk createOpts m).2.APIFailedRequestCount l
        = (if l = cinderLabels then m.APIFailedRequestCount l + 1
           else m.APIFailedRequestCount l)) ∧
    (∀ p e, sdk.ListAllPages c.serviceClient listOpts = (p, some e) →
      IsNotFoundError e = false →
      (c.ListVolumes sdk listOpts m).1 = (none, some e) ∧
      (c.ListVolumes sdk listOpts m).2.APIFailedRequestCount l
        = (if l = cinderLabels then m.APIFailedRequestCount l + 1
           else m.APIFailedRequestCount l)) ∧
    (∀ v e, sdk.Update c.serviceClient id updateOpts = (v, some e) →
      IsNotFoundError e = false →
      (c.UpdateVolume sdk IsNotFoundError id updateOpts m).1 = (none, some e) ∧
      (c.UpdateVolume sdk IsNotFoundError id updateOpts m).2.APIFailedRequestCount l
        = (if l = cinderLabels then m.APIFailedRequestCount l + 1
           else m.APIFailedRequestCount l)) ∧
    (∀ e, sdk.Delete c.serviceClient id deleteOpts = some e →
      IsNotFoundError e = false →
      (c.DeleteVolume sdk IsNotFoundError id deleteOpts m).1 = some e ∧
      (c.DeleteVolume sdk IsNotFoundError id deleteOpts m).2.APIFailedRequestCount l
        = (if l = cinderLabels then m.APIFailedRequestCount l + 1
           else m.APIFailedRequestCount l)) := by
  refine ⟨?_, ?_, ?_, ?_, ?_⟩
  · intro v e hs hnf
    simp [cinderV2.GetVolume, hs, hnf, CounterVec.Inc_apply]
  · intro v e hs _
    simp [cinderV2.CreateVolume, hs, CounterVec.Inc_apply]
  · intro p e hs _
    simp [cinderV2.ListVolumes, hs, CounterVec.Inc_apply]
  · intro v e hs hnf
    simp [cinderV2.UpdateVolume, hs, hnf, CounterVec.Inc_apply]
  · intro e hs hnf
    simp [cinderV2.DeleteVolume, hs, hnf, CounterVec.Inc_apply]

/-- Witness for C3: the service answering 500 everywhere, which the classifier
rejects; the counter read is the one labelled provider=openstack,
service=cinder. -/
theorem other_error_forwarded_and_counted_witness :
    ((Sample.client.GetVolume Sample.sdk500 Sample.isNotFound "vol-1" Metrics.zero).1
        = (none, some (500 : Nat)) ∧
      (Sample.client.GetVolume Sample.sdk500 Sample.isNotFound "vol-1"
        Metrics.zero).2.APIFailedRequestCount cinderLabels
        = (if cinderLabels = cinderLabels
           then Metrics.zero.APIFailedRequestCount cinderLabels + 1
           else Metrics.zero.APIFailedRequestCount cinderLabels)) ∧
    ((Sample.client.CreateVolume Sample.sdk500 (0 : Nat) Metrics.zero).1
        = (none, some (500 : Nat)) ∧
      (Sample.client.CreateVolume Sample.sdk500 (0 : Nat)
        Metrics.zero).2.APIFailedRequestCount cinderLabels
        = (if cinderLabels = cinderLabels
           then Metrics.zero.APIFailedRequestCount cinderLabels + 1
           else Metrics.zero.APIFailedRequestCount cinderLabels)) ∧
    ((Sample.client.ListVolumes Sample.sdk500 (0 : Nat) Metrics.zero).1
        = (none, some (500 : Nat)) ∧
      (Sample.client.ListVolumes Sample.sdk500 (0 : Nat)
        Metrics.zero).2.APIFailedRequestCount cinderLabels
        = (if cinderLabels = cinderLabels
           then Metrics.zero.APIFailedRequestCount cinderLabels + 1
           else Metrics.zero.APIFailedRequestCount cinderLabels)) ∧
    ((Sample.client.UpdateVolume Sample.sdk500 Sample.isNotFound "vol-1" ()
        Metrics.zero).1 = (none, some (500 : Nat)) ∧
      (Sample.client.UpdateVolume Sample.sdk500 Sample.isNotFound "vol-1" ()
        Metrics.zero).2.APIFailedRequestCount cinderLabels
        = (if cinderLabels = cinderLabels
           then Metrics.zero.APIFailedRequestCount cinderLabels + 1
           else Metrics.zero.APIFailedRequestCount cinderLabels)) ∧
    ((Sample.client.DeleteVolume Sample.sdk500 Sample.isNotFound "vol-1" ()
        Metrics.zero).1 = some (500 : Nat) ∧
      (Sample.client.DeleteVolume Sample.sdk500 Sample.isNotFound "vol-1" ()
        Metrics.zero).2.APIFailedRequestCount cinderLabels
        = (if cinderLabels = cinderLabels
           then Metrics.zero.APIFailedRequestCount cinderLabels + 1
           else Metrics.zero.APIFailedRequestCount cinderLabels)) :=
  have h := other_error_forwarded_and_counted Sample.sdk500 Sample.isNotFound
    Sample.client Metrics.zero "vol-1" (0 : Nat) (0 : Nat) () () cinderLabels
  ⟨h.1 none (500 : Nat) rfl (by decide),
   h.2.1 none (500 : Nat) rfl (by decide),
   h.2.2.1 none (500 : Nat) rfl (by decide),
   h.2.2.2.1 none (500 : Nat) rfl (by decide),
   h.2.2.2.2 (500 : Nat) rfl (by decide)⟩

/-! ## Success -/

/-- C4: when the SDK call returns no error, GetVolume, CreateVolume and
UpdateVolume return the extracted volume with a nil error, DeleteVolume returns
nil, ListVolumes returns exactly the pair that ExtractVolumes yields on the
fetched pages, and none of them touches the failure counter vector. -/
theorem success_passes_result_through (sdk : SDK τ) (IsNotFoundError : τ.Err → Bool)
    (c : cinderV2 τ) (m : Metrics) (id : String) (createOpts : τ.CreateOpts)
    (listOpts : τ.ListOpts) (updateOpts : τ.UpdateOpts) (deleteOpts : τ.DeleteOpts) :
    (∀ v, sdk.Get c.serviceClient id = (v, none) →
      (c.GetVolume sdk IsNotFoundError id m).1 = (v, none) ∧
      (c.GetVolume sdk IsNotFoundError id m).2.APIFailedRequestCount
        = m.APIFailedRequestCount) ∧
    (∀ v, sdk.Create c.serviceClient createOpts = (v, none) →
      (c.CreateVolume sdk createOpts m).1 = (v, none) ∧
      (c.CreateVolume sdk createOpts m).2.APIFailedRequestCount
        = m.APIFailedRequestCount) ∧
    (∀ p, sdk.ListAllPages c.serviceClient listOpts = (p, none) →
      (c.ListVolumes sdk listOpts m).1 = sdk.ExtractVolumes p ∧
      (c.ListVolumes sdk listOpts m).2.APIFailedRequestCount
        = m.APIFailedRequestCount) ∧
    (∀ v, sdk.Update c.serviceClient id updateOpts = (v, none) →
      (c.UpdateVolume sdk IsNotFoundError id updateOpts m).1 = (v, none) ∧
      (c.UpdateVolume sdk IsNotFoundError id updateOpts m).2.APIFailedRequestCount
        = m.APIFailedRequestCount) ∧
    (sdk.Delete c.serviceClient id deleteOpts = none →
      (c.DeleteVolume sdk IsNotFoundError id deleteOpts m).1 = none ∧
      (c.DeleteVolume sdk IsNotFoundError id deleteOpts m).2.APIFailedRequestCount
        = m.APIFailedRequestCount) := by
  refine ⟨?_, ?_, ?_, ?_, ?_⟩
  · intro v hs
    simp [cinderV2.GetVolume, hs]
  · intro v hs
    simp [cinderV2.CreateVolume, hs]
  · intro p hs
    simp [cinderV2.ListVolumes, hs]
  · intro v hs
    simp [cinderV2.UpdateVolume, hs]
  · intro hs
    simp [cinderV2.DeleteVolume, hs]

/-- Witness for C4: the service where every call succeeds. -/
theorem success_passes_result_through_witness :
    ((Sample.client.GetVolume Sample.sdkOk Sample.isNotFound "vol-1" Metrics.zero).1
        = (some "vol-1", none) ∧
      (Sample.client.GetVolume Sample.sdkOk Sample.isNotFound "vol-1"
        Metrics.zero).2.APIFailedRequestCount = Metrics.zero.APIFailedRequestCount) ∧
    ((Sample.client.CreateVolume Sample.sdkOk (0 : Nat) Metrics.zero).1
        = (some "new", none) ∧
      (Sample.client.CreateVolume Sample.sdkOk (0 : Nat)
        Metrics.zero).2.APIFailedRequestCount = Metrics.zero.APIFailedRequestCount) ∧
    ((Sample.client.ListVolumes Sample.sdkOk (0 : Nat) Metrics.zero).1
        = Sample.sdkOk.ExtractVolumes (some ["a", "b"]) ∧
      (Sample.client.ListVolumes Sample.sdkOk (0 : Nat)
        Metrics.zero).2.APIFailedRequestCount = Metrics.zero.APIFailedRequestCount) ∧
    ((Sample.client.UpdateVolume Sample.sdkOk Sample.isNotFound "vol-1" ()
        Metrics.zero).1 = (some "vol-1", none) ∧
      (Sample.client.UpdateVolume Sample.sdkOk Sample.isNotFound "vol-1" ()
        Metrics.zero).2.APIFailedRequestCount = Metrics.zero.APIFailedRequestCount) ∧
    ((Sample.client.DeleteVolume Sample.sdkOk Sample.isNotFound "vol-1" ()
        Metrics.zero).1 = none ∧
      (Sample.client.DeleteVolume Sample.sdkOk Sample.isNotFound "vol-1" ()
        Metrics.zero).2.APIFailedRequestCount = Metrics.zero.APIFailedRequestCount) :=
  have h := success_passes_result_through Sample.sdkOk Sample.isNotFound
    Sample.client Metrics.zero "vol-1" (0 : Nat) (0 : Nat) () ()
  ⟨h.1 (some "vol-1") rfl, h.2.1 (some "new") rfl, h.2.2.1 (some ["a", "b"]) rfl,
   h.2.2.2.1 (some "vol-1") rfl, h.2.2.2.2 rfl⟩

/-! ## Not-found, method by method -/

/-- C5: DeleteVolume returns a nil error exactly when the SDK delete call
returned no error or an error classified as not-found; for any other SDK error
it returns that error itself. -/
theorem deleteVolume_nil_iff (sdk : SDK τ) (IsNotFoundError : τ.Err → Bool)
    (c : cinderV2 τ) (id : String) (opts : τ.DeleteOpts) (m : Metrics) :
    ((c.DeleteVolume sdk IsNotFoundError id opts m).1 = none ↔
      (sdk.Delete c.serviceClient id opts = none ∨
        ∃ e, sdk.Delete c.serviceClient id opts = some e ∧ IsNotFoundError e = true)) ∧
    (∀ e, sdk.Delete c.serviceClient id opts = some e → IsNotFoundError e = false →
      (c.DeleteVolume sdk IsNotFoundError id opts m).1 = some e) := by
  unfold cinderV2.DeleteVolume
  rcases sdk.Delete c.serviceClient id opts with _ | e
  · simp
  · by_cases h : IsNotFoundError e <;> simp [h]

/-- Witness for C5: a delete answered with status 500 hands that error back,
and a delete answered with status 404 yields nil. -/
theorem deleteVolume_nil_iff_witness :
    (Sample.client.DeleteVolume Sample.sdk500 Sample.isNotFound "vol-1" ()
        Metrics.zero).1 = some (500 : Nat) ∧
    (Sample.client.DeleteVolume Sample.sdk404 Sample.isNotFound "vol-1" ()
        Metrics.zero).1 = none :=
  ⟨(deleteVolume_nil_iff Sample.sdk500 Sample.isNotFound Sample.client "vol-1" ()
      Metrics.zero).2 (500 : Nat) rfl (by decide),
   (deleteVolume_nil_iff Sample.sdk404 Sample.isNotFound Sample.client "vol-1" ()
      Metrics.zero).1.mpr (Or.inr ⟨(404 : Nat), rfl, by decide⟩)⟩

/-- C6: GetVolume returns a non-nil error exactly when the SDK get call
returned one, the error it returns is the SDK's error (not-found included), and
the returned volume is nil whenever the returned error is non-nil. -/
theorem getVolume_forwards_every_error (sdk : SDK τ) (IsNotFoundError : τ.Err → Bool)
    (c : cinderV2 τ) (id : String) (m : Metrics) :
    ((c.GetVolume sdk IsNotFoundError id m).1.2 ≠ none ↔
      (sdk.Get c.serviceClient id).2 ≠ none) ∧
    (c.GetVolume sdk IsNotFoundError id m).1.2 = (sdk.Get c.serviceClient id).2 ∧
    ((c.GetVolume sdk IsNotFoundError id m).1.2 ≠ none →
      (c.GetVolume sdk IsNotFoundError id m).1.1 = none) := by
  unfold cinderV2.GetVolume
  rcases sdk.Get c.serviceClient id with ⟨v, _ | e⟩ <;> simp

/-- Witness for C6: a get answered with status 404 returns a nil volume and the
error 404, which the classifier recognises on the result. -/
theorem getVolume_forwards_every_error_witness :
    (Sample.client.GetVolume Sample.sdk404 Sample.isNotFound "vol-1"
        Metrics.zero).1.1 = none ∧
    (Sample.client.GetVolume Sample.sdk404 Sample.isNotFound "vol-1"
        Metrics.zero).1.2 = some (404 : Nat) :=
  have h := getVolume_forwards_every_error Sample.sdk404 Sample.isNotFound
    Sample.client "vol-1" Metrics.zero
  ⟨h.2.2 (by decide), h.2.1⟩

/-- C7: when the SDK update call fails with an error classified as not-found,
UpdateVolume returns a nil error together with the volume value that Extract
returned next to that error; and UpdateVolume returns a nil error exactly when
the SDK call returned no error or a not-found error. -/
theorem updateVolume_swallows_not_found (sdk : SDK τ) (IsNotFoundError : τ.Err → Bool)
    (c : cinderV2 τ) (id : String) (opts : τ.UpdateOpts) (m : Metrics) :
    (∀ v e, sdk.Update c.serviceClient id opts = (v, some e) →
      IsNotFoundError e = true →
      (c.UpdateVolume sdk IsNotFoundError id opts m).1 = (v, none)) ∧
    ((c.UpdateVolume sdk IsNotFoundError id opts m).1.2 = none ↔
      ((sdk.Update c.serviceClient id opts).2 = none ∨
        ∃ e, (sdk.Update c.serviceClient id opts).2 = some e ∧
          IsNotFoundError e = true)) := by
  unfold cinderV2.UpdateVolume
  rcases sdk.Update c.serviceClient id opts with ⟨v, _ | e⟩
  · simp
  · by_cases h : IsNotFoundError e <;> simp [h]

/-- Witness for C7: an update answered with status 404 next to a non-nil volume
returns that volume and a nil error. -/
theorem updateVolume_swallows_not_found_witness :
    (Sample.client.UpdateVolume Sample.sdk404 Sample.isNotFound "vol-1" ()
        Metrics.zero).1 = (some "vol-1", none) :=
  (updateVolume_swallows_not_found Sample.sdk404 Sample.isNotFound Sample.client
    "vol-1" () Metrics.zero).1 (some "vol-1") (404 : Nat) rfl (by decide)

/-- C9: when AllPages succeeds and ExtractVolumes on the fetched pages returns
an error, ListVolumes returns the pair of ExtractVolumes (its result value and
its error), the failure counter vector is as before, and the request counter
labelled provider=openstack, service=cinder is one higher. -/
theorem listVolumes_extract_error_not_counted (sdk : SDK τ) (c : cinderV2 τ)
    (opts : τ.ListOpts) (m : Metrics) (p : Option τ.Page) (r : Option (List τ.Volume))
    (e : τ.Err) (hpages : sdk.ListAllPages c.serviceClient opts = (p, none))
    (hextract : sdk.ExtractVolumes p = (r, some e)) :
    (c.ListVolumes sdk opts m).1 = (r, some e) ∧
    (c.ListVolumes sdk opts m).2.APIFailedRequestCount = m.APIFailedRequestCount ∧
    (c.ListVolumes sdk opts m).2.APIRequestCount cinderLabels
      = m.APIRequestCount cinderLabels + 1 := by
  simp [cinderV2.ListVolumes, hpages, hextract, CounterVec.Inc_self]

/-- Witness for C9: pages that are fetched but fail to decode. -/
theorem listVolumes_extract_error_not_counted_witness :
    (Sample.client.ListVolumes Sample.sdkBadPages (0 : Nat) Metrics.zero).1
        = (some ["a"], some (1 : Nat)) ∧
    (Sample.client.ListVolumes Sample.sdkBadPages (0 : Nat)
        Metrics.zero).2.APIFailedRequestCount = Metrics.zero.APIFailedRequestCount ∧
    (Sample.client.ListVolumes Sample.sdkBadPages (0 : Nat)
        Metrics.zero).2.APIRequestCount cinderLabels
        = Metrics.zero.APIRequestCount cinderLabels + 1 :=
  listVolumes_extract_error_not_counted Sample.sdkBadPages Sample.client (0 : Nat)
    Metrics.zero (some ["a", "b"]) (some ["a"]) (1 : Nat) rfl rfl

/-! ## The counter invariant -/

/-- One call moves the cinder request counter up by one and the cinder failure
counter up by zero or one. -/
theorem Call.exec_counts (sdk : SDK τ) (IsNotFoundError : τ.Err → Bool) (c : cinderV2 τ)
    (call : Call τ) (m : Metrics) :
    (call.exec sdk IsNotFoundError c m).cinder.1 = m.cinder.1 + 1 ∧
    ((call.exec sdk IsNotFoundError c m).cinder.2 = m.cinder.2 ∨
      (call.exec sdk IsNotFoundError c m).cinder.2 = m.cinder.2 + 1) := by
  cases call with
  | GetVolume id =>
    rcases hs : sdk.Get c.serviceClient id with ⟨v, _ | e⟩
    · simp [Call.exec, Metrics.cinder, cinderV2.GetVolume, hs, CounterVec.Inc_self]
    · by_cases h : IsNotFoundError e <;>
        simp [Call.exec, Metrics.cinder, cinderV2.GetVolume, hs, CounterVec.Inc_self, h]
  | CreateVolume opts =>
    rcases hs : sdk.Create c.serviceClient opts with ⟨v, _ | e⟩ <;>
      simp [Call.exec, Metrics.cinder, cinderV2.CreateVolume, hs, CounterVec.Inc_self]
  | ListVolumes opts =>
    rcases hs : sdk.ListAllPages c.serviceClient opts with ⟨p, _ | e⟩ <;>
      simp [Call.exec, Metrics.cinder, cinderV2.ListVolumes, hs, CounterVec.Inc_self]
  | UpdateVolume id opts =>
    rcases hs : sdk.Update c.serviceClient id opts with ⟨v, _ | e⟩
    · simp [Call.exec, Metrics.cinder, cinderV2.UpdateVolume, hs, CounterVec.Inc_self]
    · by_cases h : IsNotFoundError e <;>
        simp [Call.exec, Metrics.cinder, cinderV2.UpdateVolume, hs, CounterVec.Inc_self, h]
  | DeleteVolume id opts =>
    rcases hs : sdk.Delete c.serviceClient id opts with _ | e
    · simp [Call.exec, Metrics.cinder, cinderV2.DeleteVolume, hs, CounterVec.Inc_self]
    · by_cases h : IsNotFoundError e <;>
        simp [Call.exec, Metrics.cinder, cinderV2.DeleteVolume, hs, CounterVec.Inc_self, h]

/-- A sequence of calls keeps failures at or below requests. -/
theorem runCalls_keeps_le (IsNotFoundError : τ.Err → Bool) (c : cinderV2 τ)
    (calls : List (SDK τ × Call τ)) (m : Metrics) (h : m.cinder.2 ≤ m.cinder.1) :
    (runCalls IsNotFoundError c calls m).cinder.2
      ≤ (runCalls IsNotFoundError c calls m).cinder.1 := by
  induction calls generalizing m with
  | nil => simpa [runCalls] using h
  | cons sc rest ih =>
    obtain ⟨sdk, call⟩ := sc
    simp only [runCalls]
    apply ih
    have hc := Call.exec_counts sdk IsNotFoundError c call m
    omega

/-- C8: with the state (requests, failures) read off the counters labelled
provider=openstack, service=cinder, every call of the five methods, whatever
the SDK answers, raises requests by exactly one and failures by zero or one;
failures at most requests is kept by every call, and holds after any sequence
of calls started from the state (0, 0). -/
theorem failures_le_requests (IsNotFoundError : τ.Err → Bool) (c : cinderV2 τ) :
    (∀ (sdk : SDK τ) (call : Call τ) (m : Metrics),
      (call.exec sdk IsNotFoundError c m).cinder.1 = m.cinder.1 + 1 ∧
      ((call.exec sdk IsNotFoundError c m).cinder.2 = m.cinder.2 ∨
        (call.exec sdk IsNotFoundError c m).cinder.2 = m.cinder.2 + 1)) ∧
    (∀ (sdk : SDK τ) (call : Call τ) (m : Metrics), m.cinder.2 ≤ m.cinder.1 →
      (call.exec sdk IsNotFoundError c m).cinder.2
        ≤ (call.exec sdk IsNotFoundError c m).cinder.1) ∧
    (∀ (calls : List (SDK τ × Call τ)) (m : Metrics), m.cinder = (0, 0) →
      (runCalls IsNotFoundError c calls m).cinder.2
        ≤ (runCalls IsNotFoundError c calls m).cinder.1) := by
  refine ⟨fun sdk call m => Call.exec_counts sdk IsNotFoundError c call m, ?_, ?_⟩
  · intro sdk call m h
    have hc := Call.exec_counts sdk IsNotFoundError c call m
    omega
  · intro calls m h
    apply runCalls_keeps_le
    simp [h]

/-- Witness for C8: a get answered 404, a delete answered 500, a create
answered 404 and a successful list, run from zeroed counters, end in the state
(4, 2). -/
theorem failures_le_requests_witness :
    (runCalls Sample.isNotFound Sample.client
      [(Sample.sdk404, Call.GetVolume "vol-1"), (Sample.sdk500, Call.DeleteVolume "vol-1" ()),
       (Sample.sdk404, Call.CreateVolume (0 : Nat)), (Sample.sdkOk, Call.ListVolumes (0 : Nat))]
      Metrics.zero).cinder = (4, 2) ∧
    (runCalls Sample.isNotFound Sample.client
      [(Sample.sdk404, Call.GetVolume "vol-1"), (Sample.sdk500, Call.DeleteVolume "vol-1" ()),
       (Sample.sdk404, Call.CreateVolume (0 : Nat)), (Sample.sdkOk, Call.ListVolumes (0 : Nat))]
      Metrics.zero).cinder.2
      ≤ (runCalls Sample.isNotFound Sample.client
      [(Sample.sdk404, Call.GetVolume "vol-1"), (Sample.sdk500, Call.DeleteVolume "vol-1" ()),
       (Sample.sdk404, Call.CreateVolume (0 : Nat)), (Sample.sdkOk, Call.ListVolumes (0 : Nat))]
      Metrics.zero).cinder.1 :=
  ⟨by decide,
   (failures_le_requests Sample.isNotFound Sample.client).2.2 _ Metrics.zero rfl⟩

end Cinder
